import Mathlib

/-!
Verification of the VSS rust client (src/client.rs) against its specification.

The file shallowly embeds `VssClient` and its four operations from src/client.rs.
The wire codec and the transport are external collaborators and are taken as opaque
function parameters.  The error type and classifier (src/error.rs), the retry
combinator (src/util/retry.rs) and the protobuf message types (src/types.rs) are
not part of the provided sources, so they are modelled from the specification;
each such definition carries a doc comment saying so.

Machine-level conventions: a byte string is a `List Nat`; an HTTP status code is a
`Nat`; the transport is a function from the index of the call (0-based, counting the
transport calls a single client-method invocation has made so far), the URL and the
request body to an outcome.  Every operation returns, besides its result, the list
of transport calls it performed, so that call counts and per-call URL/body are
provable facts.
-/

/-- A byte string on the wire. -/
abbrev Bytes : Type := List Nat

/-- Modelled from the spec: a key paired with its server-assigned version and byte
payload (the `KeyValue` protobuf message of src/types.rs, which is not under src/). -/
structure KeyValue where
  key : String
  version : Int
  value : Bytes
  deriving DecidableEq, Repr

/-- Outcome of one transport call: either a transport-level failure (connection,
timeout, DNS, body-read failure), or a status code together with the body bytes. -/
inductive TransportOutcome where
  | failure : TransportOutcome
  | response (status : Nat) (body : Bytes) : TransportOutcome
  deriving DecidableEq, Repr

/-- Modelled from the spec: the error taxonomy of spec section 7 (src/error.rs is not
under src/): transport failure, client error and server error retaining raw status and
raw body, malformed response (success status whose body failed to decode), and the
internal/server-contract violation carrying a message (`VssError::InternalServerError`
as used at src/client.rs line 58).  Statuses that are neither success nor 4xx nor 5xx
keep their raw status and body as well, per spec section 8. -/
inductive VssError where
  | transportFailure : VssError
  | clientError (status : Nat) (body : Bytes) : VssError
  | serverError (status : Nat) (body : Bytes) : VssError
  | malformedResponse : VssError
  | internalServerError (message : String) : VssError
  | unknownStatusError (status : Nat) (body : Bytes) : VssError
  deriving DecidableEq, Repr

/-- `status.is_success()` of the HTTP library: the status is in the 2xx range. -/
def is_success (status : Nat) : Bool :=
  decide (200 ≤ status ∧ status < 300)

/-- Modelled from the spec: the Error Classifier of spec section 4.2 (`VssError::new`
of src/error.rs, not under src/).  A 4xx-equivalent status yields a client error, a
5xx-equivalent status a server error, each retaining the raw status and raw body. -/
def VssError.new (status : Nat) (payload : Bytes) : VssError :=
  if 400 ≤ status ∧ status ≤ 499 then VssError.clientError status payload
  else if 500 ≤ status ∧ status ≤ 599 then VssError.serverError status payload
  else VssError.unknownStatusError status payload

/-- The raw status retained in a classified error, when one is retained. -/
def VssError.rawStatus : VssError → Option Nat
  | VssError.clientError s _ => some s
  | VssError.serverError s _ => some s
  | VssError.unknownStatusError s _ => some s
  | _ => none

/-- The raw body bytes retained in a classified error, when they are retained. -/
def VssError.rawBody : VssError → Option Bytes
  | VssError.clientError _ b => some b
  | VssError.serverError _ b => some b
  | VssError.unknownStatusError _ b => some b
  | _ => none

/-- One transport call as observed on the wire: the URL posted to and the body sent. -/
structure Call where
  url : String
  body : Bytes
  deriving DecidableEq, Repr

/-- The transport: given the index of the call within the current client-method
invocation, the URL and the request body, it produces an outcome. -/
abbrev Transport : Type := Nat → String → Bytes → TransportOutcome

/-- Modelled from the spec: the pluggable retry policy of spec section 4.3 (the
`RetryPolicy` trait of src/util/retry.rs, not under src/): consulted with the attempt
index (starting at 1) and the classified error, it answers `none` (stop, surface the
error) or `some d` (wait `d` then retry). -/
abbrev RetryPolicy : Type := Nat → VssError → Option Nat

/-- Modelled from the spec: `GetObjectRequest` (src/types.rs, not under src/):
store identifier and key. -/
structure GetObjectRequest where
  store_id : String
  key : String
  deriving DecidableEq, Repr

/-- Modelled from the spec: `GetObjectResponse` (src/types.rs, not under src/): the
value field is optional on the wire, though mandatory by the API contract. -/
structure GetObjectResponse where
  value : Option KeyValue
  deriving DecidableEq, Repr

/-- Modelled from the spec: `PutObjectRequest` (src/types.rs, not under src/): store
identifier and the ordered transaction items, committed atomically by the server. -/
structure PutObjectRequest where
  store_id : String
  transaction_items : List KeyValue
  deriving DecidableEq, Repr

/-- Modelled from the spec: `PutObjectResponse` (src/types.rs, not under src/): a bare
acknowledgement with no mandatory payload. -/
structure PutObjectResponse where
  deriving DecidableEq, Repr

/-- Modelled from the spec: `DeleteObjectRequest` (src/types.rs, not under src/):
store identifier, key and optional expected version. -/
structure DeleteObjectRequest where
  store_id : String
  key : String
  expected_version : Option Int
  deriving DecidableEq, Repr

/-- Modelled from the spec: `DeleteObjectResponse` (src/types.rs, not under src/): a
bare acknowledgement. -/
structure DeleteObjectResponse where
  deriving DecidableEq, Repr

/-- Modelled from the spec: `ListKeyVersionsRequest` (src/types.rs, not under src/):
store identifier and optional filter/pagination token. -/
structure ListKeyVersionsRequest where
  store_id : String
  filter_token : Option String
  deriving DecidableEq, Repr

/-- Modelled from the spec: `ListKeyVersionsResponse` (src/types.rs, not under src/):
an ordered list of key/version pairs. -/
structure ListKeyVersionsResponse where
  key_versions : List KeyValue
  deriving DecidableEq, Repr

/-- The client configuration of src/client.rs lines 16-24: base URL, transport handle
(an opaque value of type `C` standing for `reqwest::Client`) and retry policy. -/
structure VssClient (C : Type) where
  base_url : String
  client : C
  retry_policy : RetryPolicy

/-- `VssClient::from_client` (src/client.rs lines 34-36). -/
def VssClient.from_client {C : Type} (base_url : String) (client : C)
    (retry_policy : RetryPolicy) : VssClient C :=
  ⟨base_url, client, retry_policy⟩

/-- `VssClient::new` (src/client.rs lines 28-31): `Client::new()` is an opaque fresh
transport handle, taken here as the parameter `fresh_client`. -/
def VssClient.new {C : Type} (base_url : String) (fresh_client : C)
    (retry_policy : RetryPolicy) : VssClient C :=
  VssClient.from_client base_url fresh_client retry_policy

/-- What one client-method invocation yields: the result, the transport calls it
made in order, and the client as observable afterwards (the Rust methods take
`&self`, an immutable borrow, so the embedding passes the client state through). -/
structure OpResult (C T : Type) where
  result : Except VssError T
  calls : List Call
  client_after : VssClient C

/-- Embeds `VssClient::get_object` (src/client.rs lines 46-67).  `encode` and `decode`
are the opaque wire codec; a failure of `send` or of reading the body surfaces as the
transport-failure error (the question-mark operators at lines 50 and 52). -/
def VssClient.get_object {C : Type} (self : VssClient C)
    (encode : GetObjectRequest → Bytes) (decode : Bytes → Option GetObjectResponse)
    (transport : Transport) (request : GetObjectRequest) :
    OpResult C GetObjectResponse :=
  let url := self.base_url ++ "/getObject"
  let request_body := encode request
  let result :=
    match transport 0 url request_body with
    | TransportOutcome.failure => Except.error VssError.transportFailure
    | TransportOutcome.response status payload =>
      if is_success status then
        match decode payload with
        | none => Except.error VssError.malformedResponse
        | some response =>
          if response.value.isNone then
            Except.error (VssError.internalServerError
              "VSS Server API Violation, expected value in GetObjectResponse but found none")
          else Except.ok response
      else Except.error (VssError.new status payload)
  ⟨result, [⟨url, request_body⟩], self⟩

/-- Modelled from the spec: the retry dispatcher of spec section 4.3 (`retry` of
src/util/retry.rs, not under src/): run the operation; on success return; on failure
consult the policy with the attempt index (starting at 1) and the classified error,
stopping and surfacing the error on `none`, retrying after the delay on `some`.  The
policy alone bounds the number of attempts, so the loop is given explicit fuel
(`none` overall means the loop had not terminated within `fuel` attempts);
`calls_made` counts the transport calls already performed.  The calls of every
attempt are returned alongside the result. -/
def retry {T : Type} (retry_policy : RetryPolicy)
    (op : Nat → Call × Except VssError T) :
    Nat → Nat → Option (Except VssError T × List Call)
  | 0, _ => none
  | fuel + 1, calls_made =>
    match op calls_made with
    | (c, Except.ok v) => some (Except.ok v, [c])
    | (c, Except.error e) =>
      match retry_policy (calls_made + 1) e with
      | none => some (Except.error e, [c])
      | some _delay =>
        (retry retry_policy op fuel (calls_made + 1)).map fun p => (p.1, c :: p.2)

/-- One attempt of `put_object`: the closure body at src/client.rs lines 75-89.  The
URL is rebuilt and the request re-encoded from the immutable `request` on every
attempt; `attempt` is the 0-based index of this transport call. -/
def put_object_attempt {C : Type} (self : VssClient C)
    (encode : PutObjectRequest → Bytes) (decode : Bytes → Option PutObjectResponse)
    (transport : Transport) (request : PutObjectRequest) (attempt : Nat) :
    Call × Except VssError PutObjectResponse :=
  let url := self.base_url ++ "/putObjects"
  let request_body := encode request
  let result :=
    match transport attempt url request_body with
    | TransportOutcome.failure => Except.error VssError.transportFailure
    | TransportOutcome.response status payload =>
      if is_success status then
        match decode payload with
        | none => Except.error VssError.malformedResponse
        | some response => Except.ok response
      else Except.error (VssError.new status payload)
  (⟨url, request_body⟩, result)

/-- Embeds `VssClient::put_object` (src/client.rs lines 73-93): the only operation
wrapped in `retry`, with the client retry policy. -/
def VssClient.put_object {C : Type} (self : VssClient C)
    (encode : PutObjectRequest → Bytes) (decode : Bytes → Option PutObjectResponse)
    (transport : Transport) (request : PutObjectRequest) (fuel : Nat) :
    Option (OpResult C PutObjectResponse) :=
  (retry self.retry_policy (put_object_attempt self encode decode transport request)
      fuel 0).map
    fun p => ⟨p.1, p.2, self⟩

/-- Embeds `VssClient::delete_object` (src/client.rs lines 98-112). -/
def VssClient.delete_object {C : Type} (self : VssClient C)
    (encode : DeleteObjectRequest → Bytes) (decode : Bytes → Option DeleteObjectResponse)
    (transport : Transport) (request : DeleteObjectRequest) :
    OpResult C DeleteObjectResponse :=
  let url := self.base_url ++ "/deleteObject"
  let request_body := encode request
  let result :=
    match transport 0 url request_body with
    | TransportOutcome.failure => Except.error VssError.transportFailure
    | TransportOutcome.response status payload =>
      if is_success status then
        match decode payload with
        | none => Except.error VssError.malformedResponse
        | some response => Except.ok response
      else Except.error (VssError.new status payload)
  ⟨result, [⟨url, request_body⟩], self⟩

/-- Embeds `VssClient::list_key_versions` (src/client.rs lines 117-133). -/
def VssClient.list_key_versions {C : Type} (self : VssClient C)
    (encode : ListKeyVersionsRequest → Bytes)
    (decode : Bytes → Option ListKeyVersionsResponse)
    (transport : Transport) (request : ListKeyVersionsRequest) :
    OpResult C ListKeyVersionsResponse :=
  let url := self.base_url ++ "/listKeyVersions"
  let request_body := encode request
  let result :=
    match transport 0 url request_body with
    | TransportOutcome.failure => Except.error VssError.transportFailure
    | TransportOutcome.response status payload =>
      if is_success status then
        match decode payload with
        | none => Except.error VssError.malformedResponse
        | some response => Except.ok response
      else Except.error (VssError.new status payload)
  ⟨result, [⟨url, request_body⟩], self⟩


/-!
Helper lemmas about the retry loop, shared by several claim theorems below.
-/

/-- If every attempt issues the same transport call, every call in a terminating
retry trace is that call. -/
theorem retry_calls_constant {T : Type} (rp : RetryPolicy)
    (op : Nat → Call × Except VssError T) (c0 : Call)
    (hop : ∀ i, (op i).1 = c0) :
    ∀ fuel start p, retry rp op fuel start = some p → ∀ c ∈ p.2, c = c0 := by
  intro fuel
  induction fuel with
  | zero =>
    intro start p h
    simp [retry] at h
  | succ f ih =>
    intro start p h c hc
    rcases hope : op start with ⟨c1, r⟩
    have hc1 : c1 = c0 := by
      have h1 := hop start
      rw [hope] at h1
      exact h1
    subst hc1
    cases r with
    | ok v =>
      simp only [retry, hope] at h
      obtain rfl := Option.some_inj.1 h
      simpa using hc
    | error e =>
      simp only [retry, hope] at h
      rcases hrp : rp (start + 1) e with _ | d
      · simp only [hrp] at h
        obtain rfl := Option.some_inj.1 h
        simpa using hc
      · simp only [hrp] at h
        obtain ⟨q, hq, rfl⟩ := Option.map_eq_some'.1 h
        rcases List.mem_cons.1 hc with rfl | hmem
        · rfl
        · exact ih (start + 1) q hq c hmem

/-- If the attempts starting at `start` yield `k` server errors the policy retries,
then an error the policy stops on, the retry loop surfaces that final error after
exactly `k + 1` calls (given fuel for them). -/
theorem retry_errors_then_stop {T : Type} (rp : RetryPolicy)
    (op : Nat → Call × Except VssError T) (e_final : VssError)
    (hstop : ∀ n, rp n e_final = none) :
    ∀ k start fuel, k + 1 ≤ fuel →
      (∀ i, i < k → ∃ s b, (op (start + i)).2 = Except.error (VssError.serverError s b) ∧
        (rp (start + i + 1) (VssError.serverError s b)).isSome = true) →
      (op (start + k)).2 = Except.error e_final →
      ∃ calls, retry rp op fuel start = some (Except.error e_final, calls) ∧
        calls.length = k + 1 := by
  intro k
  induction k with
  | zero =>
    intro start fuel hfuel hserv hfin
    obtain ⟨f, rfl⟩ : ∃ f, fuel = f + 1 := ⟨fuel - 1, by omega⟩
    rw [Nat.add_zero] at hfin
    rcases hope : op start with ⟨c, r⟩
    rw [hope] at hfin
    have hr : r = Except.error e_final := hfin
    subst hr
    refine ⟨[c], ?_, rfl⟩
    simp only [retry, hope, hstop]
  | succ k ih =>
    intro start fuel hfuel hserv hfin
    obtain ⟨f, rfl⟩ : ∃ f, fuel = f + 1 := ⟨fuel - 1, by omega⟩
    obtain ⟨s, b, hops, hsome⟩ := hserv 0 (Nat.succ_pos k)
    rw [Nat.add_zero] at hops hsome
    rcases hope : op start with ⟨c, r⟩
    rw [hope] at hops
    have hr : r = Except.error (VssError.serverError s b) := hops
    subst hr
    obtain ⟨d, hd⟩ := Option.isSome_iff_exists.1 hsome
    obtain ⟨calls, hcalls, hlen⟩ := ih (start + 1) f (by omega)
      (fun i hi => by
        obtain ⟨s2, b2, h1, h2⟩ := hserv (i + 1) (by omega)
        refine ⟨s2, b2, ?_, ?_⟩
        · rw [show start + 1 + i = start + (i + 1) by omega]
          exact h1
        · rw [show start + 1 + i + 1 = start + (i + 1) + 1 by omega]
          exact h2)
      (by rw [show start + 1 + k = start + (k + 1) by omega]; exact hfin)
    refine ⟨c :: calls, ?_, by simp [hlen]⟩
    simp only [retry, hope, hd, hcalls, Option.map_some']

/-!
Claim theorems.
-/

/-- C1: when the transport returns a success status and the body decodes to a
`GetObjectResponse`, `get_object` fails with the internal/server-contract-violation
error — never with the generic decode error and never with a success — exactly when
the value field is absent; when the value is present, the decoded response is
returned unchanged. -/
theorem get_object_missing_value_contract_violation {C : Type} (self : VssClient C)
    (encode : GetObjectRequest → Bytes) (decode : Bytes → Option GetObjectResponse)
    (transport : Transport) (request : GetObjectRequest)
    (status : Nat) (payload : Bytes) (response : GetObjectResponse)
    (htr : transport 0 (self.base_url ++ "/getObject") (encode request) =
      TransportOutcome.response status payload)
    (hst : is_success status = true)
    (hdec : decode payload = some response) :
    (response.value = none →
      (self.get_object encode decode transport request).result =
        Except.error (VssError.internalServerError
          "VSS Server API Violation, expected value in GetObjectResponse but found none") ∧
      (self.get_object encode decode transport request).result ≠
        Except.error VssError.malformedResponse ∧
      ∀ r, (self.get_object encode decode transport request).result ≠ Except.ok r) ∧
    (∀ kv, response.value = some kv →
      (self.get_object encode decode transport request).result = Except.ok response) := by
  constructor
  · intro hv
    refine ⟨?_, ?_, ?_⟩ <;>
      simp [VssClient.get_object, htr, hst, hdec, hv]
  · intro kv hv
    simp [VssClient.get_object, htr, hst, hdec, hv]

/-- Witness for C1 at a concrete client, transport and codec. -/
theorem get_object_missing_value_contract_violation_witness :
    ((VssClient.mk "https://vss.example" () fun _ _ => none).get_object
        (fun _ => []) (fun _ => some ⟨none⟩)
        (fun _ _ _ => TransportOutcome.response 200 [0]) ⟨"store", "k1"⟩).result =
      Except.error (VssError.internalServerError
        "VSS Server API Violation, expected value in GetObjectResponse but found none") :=
  ((get_object_missing_value_contract_violation
      (VssClient.mk "https://vss.example" () fun _ _ => none)
      (fun _ => []) (fun _ => some ⟨none⟩)
      (fun _ _ _ => TransportOutcome.response 200 [0]) ⟨"store", "k1"⟩
      200 [0] ⟨none⟩ rfl (by decide) rfl).1 rfl).1

/-- C2: `get_object`, `delete_object` and `list_key_versions` each make exactly one
transport call, their result does not depend on the configured retry policy (the
policy is never consulted), and the first classified error is surfaced immediately. -/
theorem get_delete_list_single_call_no_retry {C : Type} (self : VssClient C)
    (p q : RetryPolicy)
    (encode_g : GetObjectRequest → Bytes) (decode_g : Bytes → Option GetObjectResponse)
    (transport_g : Transport) (request_g : GetObjectRequest)
    (encode_d : DeleteObjectRequest → Bytes) (decode_d : Bytes → Option DeleteObjectResponse)
    (transport_d : Transport) (request_d : DeleteObjectRequest)
    (encode_l : ListKeyVersionsRequest → Bytes)
    (decode_l : Bytes → Option ListKeyVersionsResponse)
    (transport_l : Transport) (request_l : ListKeyVersionsRequest) :
    ((self.get_object encode_g decode_g transport_g request_g).calls.length = 1 ∧
      ({ self with retry_policy := p }.get_object encode_g decode_g transport_g
          request_g).result =
        ({ self with retry_policy := q }.get_object encode_g decode_g transport_g
          request_g).result ∧
      ∀ status payload,
        transport_g 0 (self.base_url ++ "/getObject") (encode_g request_g) =
          TransportOutcome.response status payload →
        is_success status = false →
        (self.get_object encode_g decode_g transport_g request_g).result =
          Except.error (VssError.new status payload)) ∧
    ((self.delete_object encode_d decode_d transport_d request_d).calls.length = 1 ∧
      ({ self with retry_policy := p }.delete_object encode_d decode_d transport_d
          request_d).result =
        ({ self with retry_policy := q }.delete_object encode_d decode_d transport_d
          request_d).result ∧
      ∀ status payload,
        transport_d 0 (self.base_url ++ "/deleteObject") (encode_d request_d) =
          TransportOutcome.response status payload →
        is_success status = false →
        (self.delete_object encode_d decode_d transport_d request_d).result =
          Except.error (VssError.new status payload)) ∧
    ((self.list_key_versions encode_l decode_l transport_l request_l).calls.length = 1 ∧
      ({ self with retry_policy := p }.list_key_versions encode_l decode_l transport_l
          request_l).result =
        ({ self with retry_policy := q }.list_key_versions encode_l decode_l transport_l
          request_l).result ∧
      ∀ status payload,
        transport_l 0 (self.base_url ++ "/listKeyVersions") (encode_l request_l) =
          TransportOutcome.response status payload →
        is_success status = false →
        (self.list_key_versions encode_l decode_l transport_l request_l).result =
          Except.error (VssError.new status payload)) := by
  refine ⟨⟨rfl, rfl, ?_⟩, ⟨rfl, rfl, ?_⟩, ⟨rfl, rfl, ?_⟩⟩ <;>
    intro status payload htr hst
  · simp [VssClient.get_object, htr, hst]
  · simp [VssClient.delete_object, htr, hst]
  · simp [VssClient.list_key_versions, htr, hst]

/-- Witness for C2: one concrete call count and one concrete immediately-surfaced
classified error. -/
theorem get_delete_list_single_call_no_retry_witness :
    ((VssClient.mk "https://vss.example" () fun _ _ => some 1).get_object
        (fun _ => [1]) (fun _ => none) (fun _ _ _ => TransportOutcome.failure)
        ⟨"store", "k1"⟩).calls.length = 1 ∧
    ((VssClient.mk "https://vss.example" () fun _ _ => some 1).delete_object
        (fun _ => [2]) (fun _ => none) (fun _ _ _ => TransportOutcome.response 404 [9])
        ⟨"store", "k1", none⟩).result = Except.error (VssError.new 404 [9]) :=
  ⟨(get_delete_list_single_call_no_retry
      (VssClient.mk "https://vss.example" () fun _ _ => some 1)
      (fun _ _ => some 1) (fun _ _ => none)
      (fun _ => [1]) (fun _ => none) (fun _ _ _ => TransportOutcome.failure)
      ⟨"store", "k1"⟩
      (fun _ => [2]) (fun _ => none) (fun _ _ _ => TransportOutcome.response 404 [9])
      ⟨"store", "k1", none⟩
      (fun _ => [3]) (fun _ => none) (fun _ _ _ => TransportOutcome.failure)
      ⟨"store", none⟩).1.1,
    (get_delete_list_single_call_no_retry
      (VssClient.mk "https://vss.example" () fun _ _ => some 1)
      (fun _ _ => some 1) (fun _ _ => none)
      (fun _ => [1]) (fun _ => none) (fun _ _ _ => TransportOutcome.failure)
      ⟨"store", "k1"⟩
      (fun _ => [2]) (fun _ => none) (fun _ _ _ => TransportOutcome.response 404 [9])
      ⟨"store", "k1", none⟩
      (fun _ => [3]) (fun _ => none) (fun _ _ _ => TransportOutcome.failure)
      ⟨"store", none⟩).2.1.2.2 404 [9] rfl (by decide)⟩

/-- C3: if the transport yields 5xx responses on the first `k` attempts of one
`put_object` call and a 4xx response on attempt `k + 1`, and the configured retry
policy retries exactly the server errors, then `put_object` performs exactly `k + 1`
transport calls and returns the classified client error of the final attempt. -/
theorem put_object_server_errors_then_client_error {C : Type} (self : VssClient C)
    (encode : PutObjectRequest → Bytes) (decode : Bytes → Option PutObjectResponse)
    (transport : Transport) (request : PutObjectRequest)
    (k fuel : Nat) (sStat : Nat → Nat) (sBody : Nat → Bytes) (cStat : Nat) (cBody : Bytes)
    (hfuel : k + 1 ≤ fuel)
    (hpol_server : ∀ n s b, (self.retry_policy n (VssError.serverError s b)).isSome = true)
    (hpol_other : ∀ n e, (∀ s b, e ≠ VssError.serverError s b) → self.retry_policy n e = none)
    (htr_server : ∀ i, i < k →
      transport i (self.base_url ++ "/putObjects") (encode request) =
        TransportOutcome.response (sStat i) (sBody i))
    (hstat_server : ∀ i, i < k → 500 ≤ sStat i ∧ sStat i ≤ 599)
    (htr_client : transport k (self.base_url ++ "/putObjects") (encode request) =
      TransportOutcome.response cStat cBody)
    (hstat_client : 400 ≤ cStat ∧ cStat ≤ 499) :
    ∃ calls, self.put_object encode decode transport request fuel =
        some ⟨Except.error (VssError.clientError cStat cBody), calls, self⟩ ∧
      calls.length = k + 1 := by
  have hnew_client : VssError.new cStat cBody = VssError.clientError cStat cBody := by
    unfold VssError.new
    rw [if_pos hstat_client]
  obtain ⟨calls, hcalls, hlen⟩ :=
    retry_errors_then_stop self.retry_policy
      (put_object_attempt self encode decode transport request)
      (VssError.clientError cStat cBody)
      (fun n => hpol_other n _ (fun s b => by simp))
      k 0 fuel hfuel
      (fun i hi => by
        refine ⟨sStat i, sBody i, ?_, hpol_server _ _ _⟩
        have hs := hstat_server i hi
        have hfail : is_success (sStat i) = false := by
          simp only [is_success, decide_eq_false_iff_not]
          omega
        have hnew : VssError.new (sStat i) (sBody i) =
            VssError.serverError (sStat i) (sBody i) := by
          unfold VssError.new
          rw [if_neg (by omega), if_pos (by omega)]
        simp [put_object_attempt, Nat.zero_add, htr_server i hi, hfail, hnew])
      (by
        have hfail : is_success cStat = false := by
          simp only [is_success, decide_eq_false_iff_not]
          omega
        simp [put_object_attempt, Nat.zero_add, htr_client, hfail, hnew_client])
  refine ⟨calls, ?_, hlen⟩
  simp [VssClient.put_object, hcalls]

/-- Witness for C3: one server error then one client error, two transport calls. -/
theorem put_object_server_errors_then_client_error_witness :
    ∃ calls,
      (VssClient.mk "https://vss.example" () fun _ e =>
          match e with
          | VssError.serverError _ _ => some 1
          | _ => none).put_object
        (fun _ => [1, 2]) (fun _ => some ⟨⟩)
        (fun n _ _ => if n = 0 then TransportOutcome.response 500 [9]
          else TransportOutcome.response 400 [7])
        ⟨"store", []⟩ 5 =
        some ⟨Except.error (VssError.clientError 400 [7]), calls,
          VssClient.mk "https://vss.example" () fun _ e =>
            match e with
            | VssError.serverError _ _ => some 1
            | _ => none⟩ ∧
      calls.length = 2 :=
  put_object_server_errors_then_client_error
    (VssClient.mk "https://vss.example" () fun _ e =>
      match e with
      | VssError.serverError _ _ => some 1
      | _ => none)
    (fun _ => [1, 2]) (fun _ => some ⟨⟩)
    (fun n _ _ => if n = 0 then TransportOutcome.response 500 [9]
      else TransportOutcome.response 400 [7])
    ⟨"store", []⟩ 1 5 (fun _ => 500) (fun _ => [9]) 400 [7]
    (by omega)
    (fun _ _ _ => rfl)
    (fun n e he => by
      cases e with
      | serverError s b => exact absurd rfl (he s b)
      | transportFailure => rfl
      | clientError s b => rfl
      | malformedResponse => rfl
      | internalServerError m => rfl
      | unknownStatusError s b => rfl)
    (fun i hi => by
      have hi0 : i = 0 := by omega
      subst hi0
      rfl)
    (fun i hi => by
      have hi0 : i = 0 := by omega
      subst hi0
      show 500 ≤ 500 ∧ 500 ≤ 599
      omega)
    rfl
    ⟨by omega, by omega⟩

/-- C4: if the first transport attempt of `put_object` returns a success status whose
body decodes, exactly one transport call occurs and the decoded response is returned,
whatever retry policy the client is configured with. -/
theorem put_object_first_attempt_success_single_call {C : Type} (self : VssClient C)
    (encode : PutObjectRequest → Bytes) (decode : Bytes → Option PutObjectResponse)
    (transport : Transport) (request : PutObjectRequest)
    (status : Nat) (payload : Bytes) (response : PutObjectResponse) (fuel : Nat)
    (hfuel : 1 ≤ fuel)
    (htr : transport 0 (self.base_url ++ "/putObjects") (encode request) =
      TransportOutcome.response status payload)
    (hst : is_success status = true)
    (hdec : decode payload = some response) :
    self.put_object encode decode transport request fuel =
      some ⟨Except.ok response, [⟨self.base_url ++ "/putObjects", encode request⟩], self⟩ := by
  obtain ⟨f, rfl⟩ : ∃ f, fuel = f + 1 := ⟨fuel - 1, by omega⟩
  have hop : put_object_attempt self encode decode transport request 0 =
      (⟨self.base_url ++ "/putObjects", encode request⟩, Except.ok response) := by
    simp [put_object_attempt, htr, hst, hdec]
  simp [VssClient.put_object, retry, hop]

/-- Witness for C4 at a concrete client whose policy would always retry. -/
theorem put_object_first_attempt_success_single_call_witness :
    (VssClient.mk "https://vss.example" () fun _ _ => some 1).put_object
        (fun _ => [1, 2]) (fun _ => some ⟨⟩)
        (fun _ _ _ => TransportOutcome.response 200 []) ⟨"store", []⟩ 3 =
      some ⟨Except.ok ⟨⟩, [⟨"https://vss.example" ++ "/putObjects", [1, 2]⟩],
        VssClient.mk "https://vss.example" () fun _ _ => some 1⟩ :=
  put_object_first_attempt_success_single_call
    (VssClient.mk "https://vss.example" () fun _ _ => some 1)
    (fun _ => [1, 2]) (fun _ => some ⟨⟩)
    (fun _ _ _ => TransportOutcome.response 200 []) ⟨"store", []⟩
    200 [] ⟨⟩ 3 (by omega) rfl (by decide) rfl

/-- C5: the classifier retains the raw status and raw body of every non-success
response, and each operation surfaces exactly that classified error: `get_object`,
`delete_object` and `list_key_versions` directly, `put_object` on each attempt. -/
theorem classified_error_preserves_status_and_body {C : Type} (self : VssClient C)
    (encode_g : GetObjectRequest → Bytes) (decode_g : Bytes → Option GetObjectResponse)
    (transport_g : Transport) (request_g : GetObjectRequest)
    (encode_d : DeleteObjectRequest → Bytes) (decode_d : Bytes → Option DeleteObjectResponse)
    (transport_d : Transport) (request_d : DeleteObjectRequest)
    (encode_l : ListKeyVersionsRequest → Bytes)
    (decode_l : Bytes → Option ListKeyVersionsResponse)
    (transport_l : Transport) (request_l : ListKeyVersionsRequest)
    (encode_p : PutObjectRequest → Bytes) (decode_p : Bytes → Option PutObjectResponse)
    (transport_p : Transport) (request_p : PutObjectRequest)
    (status : Nat) (payload : Bytes)
    (hst : is_success status = false) :
    (VssError.new status payload).rawStatus = some status ∧
    (VssError.new status payload).rawBody = some payload ∧
    (transport_g 0 (self.base_url ++ "/getObject") (encode_g request_g) =
        TransportOutcome.response status payload →
      (self.get_object encode_g decode_g transport_g request_g).result =
        Except.error (VssError.new status payload)) ∧
    (transport_d 0 (self.base_url ++ "/deleteObject") (encode_d request_d) =
        TransportOutcome.response status payload →
      (self.delete_object encode_d decode_d transport_d request_d).result =
        Except.error (VssError.new status payload)) ∧
    (transport_l 0 (self.base_url ++ "/listKeyVersions") (encode_l request_l) =
        TransportOutcome.response status payload →
      (self.list_key_versions encode_l decode_l transport_l request_l).result =
        Except.error (VssError.new status payload)) ∧
    (∀ i, transport_p i (self.base_url ++ "/putObjects") (encode_p request_p) =
        TransportOutcome.response status payload →
      (put_object_attempt self encode_p decode_p transport_p request_p i).2 =
        Except.error (VssError.new status payload)) := by
  refine ⟨?_, ?_, ?_, ?_, ?_, ?_⟩
  · unfold VssError.new
    split_ifs <;> rfl
  · unfold VssError.new
    split_ifs <;> rfl
  · intro htr
    simp [VssClient.get_object, htr, hst]
  · intro htr
    simp [VssClient.delete_object, htr, hst]
  · intro htr
    simp [VssClient.list_key_versions, htr, hst]
  · intro i htr
    simp [put_object_attempt, htr, hst]

/-- Witness for C5: a concrete 404 with body bytes is retained and surfaced. -/
theorem classified_error_preserves_status_and_body_witness :
    (VssError.new 404 [1, 2, 3]).rawStatus = some 404 ∧
    (VssError.new 404 [1, 2, 3]).rawBody = some [1, 2, 3] ∧
    ((VssClient.mk "https://vss.example" () fun _ _ => none).get_object
        (fun _ => []) (fun _ => none)
        (fun _ _ _ => TransportOutcome.response 404 [1, 2, 3]) ⟨"store", "k1"⟩).result =
      Except.error (VssError.new 404 [1, 2, 3]) :=
  let thm := classified_error_preserves_status_and_body
    (VssClient.mk "https://vss.example" () fun _ _ => none)
    (fun _ => []) (fun _ => none)
    (fun _ _ _ => TransportOutcome.response 404 [1, 2, 3]) ⟨"store", "k1"⟩
    (fun _ => []) (fun _ => none) (fun _ _ _ => TransportOutcome.failure)
    ⟨"store", "k1", none⟩
    (fun _ => []) (fun _ => none) (fun _ _ _ => TransportOutcome.failure) ⟨"store", none⟩
    (fun _ => []) (fun _ => none) (fun _ _ _ => TransportOutcome.failure) ⟨"store", []⟩
    404 [1, 2, 3] (by decide)
  ⟨thm.1, thm.2.1, thm.2.2.1 rfl⟩

/-- C6: on a success status whose body does not decode, every operation fails with
the malformed-response error, an error kind distinct from the contract-violation,
client, server, transport and unknown-status kinds. -/
theorem decode_failure_malformed_response {C : Type} (self : VssClient C)
    (encode_g : GetObjectRequest → Bytes) (decode_g : Bytes → Option GetObjectResponse)
    (transport_g : Transport) (request_g : GetObjectRequest)
    (encode_d : DeleteObjectRequest → Bytes) (decode_d : Bytes → Option DeleteObjectResponse)
    (transport_d : Transport) (request_d : DeleteObjectRequest)
    (encode_l : ListKeyVersionsRequest → Bytes)
    (decode_l : Bytes → Option ListKeyVersionsResponse)
    (transport_l : Transport) (request_l : ListKeyVersionsRequest)
    (encode_p : PutObjectRequest → Bytes) (decode_p : Bytes → Option PutObjectResponse)
    (transport_p : Transport) (request_p : PutObjectRequest)
    (status : Nat) (payload : Bytes)
    (hst : is_success status = true) :
    (transport_g 0 (self.base_url ++ "/getObject") (encode_g request_g) =
        TransportOutcome.response status payload →
      decode_g payload = none →
      (self.get_object encode_g decode_g transport_g request_g).result =
        Except.error VssError.malformedResponse) ∧
    (transport_d 0 (self.base_url ++ "/deleteObject") (encode_d request_d) =
        TransportOutcome.response status payload →
      decode_d payload = none →
      (self.delete_object encode_d decode_d transport_d request_d).result =
        Except.error VssError.malformedResponse) ∧
    (transport_l 0 (self.base_url ++ "/listKeyVersions") (encode_l request_l) =
        TransportOutcome.response status payload →
      decode_l payload = none →
      (self.list_key_versions encode_l decode_l transport_l request_l).result =
        Except.error VssError.malformedResponse) ∧
    (∀ i, transport_p i (self.base_url ++ "/putObjects") (encode_p request_p) =
        TransportOutcome.response status payload →
      decode_p payload = none →
      (put_object_attempt self encode_p decode_p transport_p request_p i).2 =
        Except.error VssError.malformedResponse) ∧
    ((∀ m, VssError.malformedResponse ≠ VssError.internalServerError m) ∧
      (∀ s b, VssError.malformedResponse ≠ VssError.clientError s b) ∧
      (∀ s b, VssError.malformedResponse ≠ VssError.serverError s b) ∧
      VssError.malformedResponse ≠ VssError.transportFailure ∧
      (∀ s b, VssError.malformedResponse ≠ VssError.unknownStatusError s b)) := by
  refine ⟨?_, ?_, ?_, ?_, ?_⟩
  · intro htr hdec
    simp [VssClient.get_object, htr, hst, hdec]
  · intro htr hdec
    simp [VssClient.delete_object, htr, hst, hdec]
  · intro htr hdec
    simp [VssClient.list_key_versions, htr, hst, hdec]
  · intro i htr hdec
    simp [put_object_attempt, htr, hst, hdec]
  · exact ⟨fun m => by simp, fun s b => by simp, fun s b => by simp, by simp,
      fun s b => by simp⟩

/-- Witness for C6: a concrete undecodable success body yields the malformed error. -/
theorem decode_failure_malformed_response_witness :
    ((VssClient.mk "https://vss.example" () fun _ _ => none).list_key_versions
        (fun _ => []) (fun _ => none)
        (fun _ _ _ => TransportOutcome.response 204 [255]) ⟨"store", none⟩).result =
      Except.error VssError.malformedResponse ∧
    VssError.malformedResponse ≠ VssError.internalServerError "boom" :=
  let thm := decode_failure_malformed_response
    (VssClient.mk "https://vss.example" () fun _ _ => none)
    (fun _ => []) (fun _ => none) (fun _ _ _ => TransportOutcome.failure) ⟨"store", "k1"⟩
    (fun _ => []) (fun _ => none) (fun _ _ _ => TransportOutcome.failure)
    ⟨"store", "k1", none⟩
    (fun _ => []) (fun _ => none) (fun _ _ _ => TransportOutcome.response 204 [255])
    ⟨"store", none⟩
    (fun _ => []) (fun _ => none) (fun _ _ _ => TransportOutcome.failure) ⟨"store", []⟩
    204 [255] (by decide)
  ⟨thm.2.2.1 rfl rfl, thm.2.2.2.2.1 "boom"⟩

/-- C7: every operation posts to the configured base URL plus its fixed path suffix:
`/getObject`, `/putObjects`, `/deleteObject` and `/listKeyVersions`. -/
theorem operation_endpoint_urls {C : Type} (self : VssClient C)
    (encode_g : GetObjectRequest → Bytes) (decode_g : Bytes → Option GetObjectResponse)
    (transport_g : Transport) (request_g : GetObjectRequest)
    (encode_d : DeleteObjectRequest → Bytes) (decode_d : Bytes → Option DeleteObjectResponse)
    (transport_d : Transport) (request_d : DeleteObjectRequest)
    (encode_l : ListKeyVersionsRequest → Bytes)
    (decode_l : Bytes → Option ListKeyVersionsResponse)
    (transport_l : Transport) (request_l : ListKeyVersionsRequest)
    (encode_p : PutObjectRequest → Bytes) (decode_p : Bytes → Option PutObjectResponse)
    (transport_p : Transport) (request_p : PutObjectRequest) (fuel : Nat) :
    (self.get_object encode_g decode_g transport_g request_g).calls =
      [⟨self.base_url ++ "/getObject", encode_g request_g⟩] ∧
    (self.delete_object encode_d decode_d transport_d request_d).calls =
      [⟨self.base_url ++ "/deleteObject", encode_d request_d⟩] ∧
    (self.list_key_versions encode_l decode_l transport_l request_l).calls =
      [⟨self.base_url ++ "/listKeyVersions", encode_l request_l⟩] ∧
    (∀ r, self.put_object encode_p decode_p transport_p request_p fuel = some r →
      ∀ c ∈ r.calls, c.url = self.base_url ++ "/putObjects") := by
  refine ⟨rfl, rfl, rfl, ?_⟩
  intro r hr c hc
  obtain ⟨p, hp, rfl⟩ := Option.map_eq_some'.1 hr
  have := retry_calls_constant self.retry_policy
    (put_object_attempt self encode_p decode_p transport_p request_p)
    ⟨self.base_url ++ "/putObjects", encode_p request_p⟩
    (fun i => rfl) fuel 0 p hp c hc
  rw [this]

/-- Witness for C7: concrete call lists of a get and of a two-attempt put. -/
theorem operation_endpoint_urls_witness :
    ((VssClient.mk "https://vss.example" () fun _ _ => some 1).get_object
        (fun _ => [5]) (fun _ => none) (fun _ _ _ => TransportOutcome.failure)
        ⟨"store", "k1"⟩).calls =
      [⟨"https://vss.example" ++ "/getObject", [5]⟩] ∧
    (⟨"https://vss.example/putObjects", [1, 2]⟩ : Call).url =
      "https://vss.example" ++ "/putObjects" :=
  let thm := operation_endpoint_urls
    (VssClient.mk "https://vss.example" () fun _ _ => some 1)
    (fun _ => [5]) (fun _ => none) (fun _ _ _ => TransportOutcome.failure) ⟨"store", "k1"⟩
    (fun _ => []) (fun _ => none) (fun _ _ _ => TransportOutcome.failure)
    ⟨"store", "k1", none⟩
    (fun _ => []) (fun _ => none) (fun _ _ _ => TransportOutcome.failure) ⟨"store", none⟩
    (fun _ => [1, 2]) (fun _ => some ⟨⟩)
    (fun n _ _ => if n = 0 then TransportOutcome.failure
      else TransportOutcome.response 200 [])
    ⟨"store", []⟩ 5
  ⟨thm.1,
    thm.2.2.2
      ⟨Except.ok ⟨⟩,
        [⟨"https://vss.example/putObjects", [1, 2]⟩,
          ⟨"https://vss.example/putObjects", [1, 2]⟩],
        VssClient.mk "https://vss.example" () fun _ _ => some 1⟩
      rfl ⟨"https://vss.example/putObjects", [1, 2]⟩ (by simp)⟩

/-- C8: the client configuration is immutable: `base_url` returns exactly the string
the client was constructed with (through both constructors), and every operation
leaves the client state unchanged. -/
theorem client_configuration_immutable {C : Type} (b : String) (cl fresh : C)
    (rp : RetryPolicy) (self : VssClient C)
    (encode_g : GetObjectRequest → Bytes) (decode_g : Bytes → Option GetObjectResponse)
    (transport_g : Transport) (request_g : GetObjectRequest)
    (encode_d : DeleteObjectRequest → Bytes) (decode_d : Bytes → Option DeleteObjectResponse)
    (transport_d : Transport) (request_d : DeleteObjectRequest)
    (encode_l : ListKeyVersionsRequest → Bytes)
    (decode_l : Bytes → Option ListKeyVersionsResponse)
    (transport_l : Transport) (request_l : ListKeyVersionsRequest)
    (encode_p : PutObjectRequest → Bytes) (decode_p : Bytes → Option PutObjectResponse)
    (transport_p : Transport) (request_p : PutObjectRequest) (fuel : Nat) :
    (VssClient.from_client b cl rp).base_url = b ∧
    (VssClient.new b fresh rp).base_url = b ∧
    (self.get_object encode_g decode_g transport_g request_g).client_after = self ∧
    (self.delete_object encode_d decode_d transport_d request_d).client_after = self ∧
    (self.list_key_versions encode_l decode_l transport_l request_l).client_after = self ∧
    (∀ r, self.put_object encode_p decode_p transport_p request_p fuel = some r →
      r.client_after = self) := by
  refine ⟨rfl, rfl, rfl, rfl, rfl, ?_⟩
  intro r hr
  obtain ⟨p, hp, rfl⟩ := Option.map_eq_some'.1 hr
  rfl

/-- Witness for C8: base URL round-trip and unchanged client after concrete calls. -/
theorem client_configuration_immutable_witness :
    (VssClient.from_client "https://vss.example" () fun _ _ => none).base_url =
      "https://vss.example" ∧
    ((VssClient.mk "https://vss.example" () fun _ _ => none).get_object
        (fun _ => []) (fun _ => none) (fun _ _ _ => TransportOutcome.failure)
        ⟨"store", "k1"⟩).client_after =
      (VssClient.mk "https://vss.example" () fun _ _ => none) ∧
    OpResult.client_after
        (⟨Except.error VssError.transportFailure,
          [⟨"https://vss.example/putObjects", [4]⟩],
          VssClient.mk "https://vss.example" () fun _ _ => none⟩ :
            OpResult Unit PutObjectResponse) =
      VssClient.mk "https://vss.example" () fun _ _ => none :=
  let thm := client_configuration_immutable "https://vss.example" () ()
    (fun _ _ => none) (VssClient.mk "https://vss.example" () fun _ _ => none)
    (fun _ => []) (fun _ => none) (fun _ _ _ => TransportOutcome.failure) ⟨"store", "k1"⟩
    (fun _ => []) (fun _ => none) (fun _ _ _ => TransportOutcome.failure)
    ⟨"store", "k1", none⟩
    (fun _ => []) (fun _ => none) (fun _ _ _ => TransportOutcome.failure) ⟨"store", none⟩
    (fun _ => [4]) (fun _ => none) (fun _ _ _ => TransportOutcome.failure) ⟨"store", []⟩ 1
  ⟨thm.1, thm.2.2.1,
    thm.2.2.2.2.2
      ⟨Except.error VssError.transportFailure,
        [⟨"https://vss.example/putObjects", [4]⟩],
        VssClient.mk "https://vss.example" () fun _ _ => none⟩
      rfl⟩

/-- C9: every attempt of one `put_object` call re-runs encode and send from the same
immutable request, so every transport call of that invocation posts the identical
body, `encode request`, to the identical URL, `base_url ++ "/putObjects"`. -/
theorem put_object_attempts_identical {C : Type} (self : VssClient C)
    (encode : PutObjectRequest → Bytes) (decode : Bytes → Option PutObjectResponse)
    (transport : Transport) (request : PutObjectRequest) (fuel : Nat) :
    ∀ r, self.put_object encode decode transport request fuel = some r →
      ∀ c ∈ r.calls, c = ⟨self.base_url ++ "/putObjects", encode request⟩ := by
  intro r hr c hc
  obtain ⟨p, hp, rfl⟩ := Option.map_eq_some'.1 hr
  exact retry_calls_constant self.retry_policy
    (put_object_attempt self encode decode transport request)
    ⟨self.base_url ++ "/putObjects", encode request⟩
    (fun i => rfl) fuel 0 p hp c hc

/-- Witness for C9: the second call of a concrete two-attempt put equals the call
built from the immutable request. -/
theorem put_object_attempts_identical_witness :
    (⟨"https://vss.example/putObjects", [1, 2]⟩ : Call) =
      ⟨"https://vss.example" ++ "/putObjects", [1, 2]⟩ :=
  put_object_attempts_identical
    (VssClient.mk "https://vss.example" () fun _ e =>
      match e with
      | VssError.serverError _ _ => some 1
      | _ => none)
    (fun _ => [1, 2]) (fun _ => some ⟨⟩)
    (fun n _ _ => if n = 0 then TransportOutcome.response 500 [9]
      else TransportOutcome.response 200 [])
    ⟨"store", []⟩ 5
    ⟨Except.ok ⟨⟩,
      [⟨"https://vss.example/putObjects", [1, 2]⟩,
        ⟨"https://vss.example/putObjects", [1, 2]⟩],
      VssClient.mk "https://vss.example" () fun _ e =>
        match e with
        | VssError.serverError _ _ => some 1
        | _ => none⟩
    rfl ⟨"https://vss.example/putObjects", [1, 2]⟩ (by simp)

/-- C10: unlike `get_object`, the success path of `put_object` (each attempt),
`delete_object` and `list_key_versions` validates no mandatory field: any decoded
response — the all-default one included — is returned as success, while `get_object`
turns a decoded response with no value into the contract-violation error. -/
theorem put_delete_list_no_mandatory_field_validation {C : Type} (self : VssClient C)
    (encode_g : GetObjectRequest → Bytes) (decode_g : Bytes → Option GetObjectResponse)
    (transport_g : Transport) (request_g : GetObjectRequest)
    (encode_d : DeleteObjectRequest → Bytes) (decode_d : Bytes → Option DeleteObjectResponse)
    (transport_d : Transport) (request_d : DeleteObjectRequest)
    (encode_l : ListKeyVersionsRequest → Bytes)
    (decode_l : Bytes → Option ListKeyVersionsResponse)
    (transport_l : Transport) (request_l : ListKeyVersionsRequest)
    (encode_p : PutObjectRequest → Bytes) (decode_p : Bytes → Option PutObjectResponse)
    (transport_p : Transport) (request_p : PutObjectRequest)
    (status : Nat) (payload : Bytes)
    (hst : is_success status = true) :
    (∀ i response_p,
      transport_p i (self.base_url ++ "/putObjects") (encode_p request_p) =
        TransportOutcome.response status payload →
      decode_p payload = some response_p →
      (put_object_attempt self encode_p decode_p transport_p request_p i).2 =
        Except.ok response_p) ∧
    (∀ response_d,
      transport_d 0 (self.base_url ++ "/deleteObject") (encode_d request_d) =
        TransportOutcome.response status payload →
      decode_d payload = some response_d →
      (self.delete_object encode_d decode_d transport_d request_d).result =
        Except.ok response_d) ∧
    (∀ response_l,
      transport_l 0 (self.base_url ++ "/listKeyVersions") (encode_l request_l) =
        TransportOutcome.response status payload →
      decode_l payload = some response_l →
      (self.list_key_versions encode_l decode_l transport_l request_l).result =
        Except.ok response_l) ∧
    (∀ response_g,
      transport_g 0 (self.base_url ++ "/getObject") (encode_g request_g) =
        TransportOutcome.response status payload →
      decode_g payload = some response_g →
      response_g.value = none →
      (self.get_object encode_g decode_g transport_g request_g).result =
        Except.error (VssError.internalServerError
          "VSS Server API Violation, expected value in GetObjectResponse but found none")) := by
  refine ⟨?_, ?_, ?_, ?_⟩
  · intro i response_p htr hdec
    simp [put_object_attempt, htr, hst, hdec]
  · intro response_d htr hdec
    simp [VssClient.delete_object, htr, hst, hdec]
  · intro response_l htr hdec
    simp [VssClient.list_key_versions, htr, hst, hdec]
  · intro response_g htr hdec hv
    simp [VssClient.get_object, htr, hst, hdec, hv]

/-- Witness for C10: an empty success body decoding to the all-default response is a
success for delete and for a put attempt. -/
theorem put_delete_list_no_mandatory_field_validation_witness :
    ((VssClient.mk "https://vss.example" () fun _ _ => none).delete_object
        (fun _ => []) (fun _ => some ⟨⟩)
        (fun _ _ _ => TransportOutcome.response 200 []) ⟨"store", "k1", none⟩).result =
      Except.ok ⟨⟩ ∧
    (put_object_attempt (VssClient.mk "https://vss.example" () fun _ _ => none)
        (fun _ => []) (fun _ => some ⟨⟩)
        (fun _ _ _ => TransportOutcome.response 200 []) ⟨"store", []⟩ 0).2 =
      Except.ok ⟨⟩ :=
  let thm := put_delete_list_no_mandatory_field_validation
    (VssClient.mk "https://vss.example" () fun _ _ => none)
    (fun _ => []) (fun _ => some ⟨none⟩)
    (fun _ _ _ => TransportOutcome.response 200 []) ⟨"store", "k1"⟩
    (fun _ => []) (fun _ => some ⟨⟩)
    (fun _ _ _ => TransportOutcome.response 200 []) ⟨"store", "k1", none⟩
    (fun _ => []) (fun _ => some ⟨[]⟩)
    (fun _ _ _ => TransportOutcome.response 200 []) ⟨"store", none⟩
    (fun _ => []) (fun _ => some ⟨⟩)
    (fun _ _ _ => TransportOutcome.response 200 []) ⟨"store", []⟩
    200 [] (by decide)
  ⟨thm.2.1 ⟨⟩ rfl rfl, thm.1 0 ⟨⟩ rfl rfl⟩
